import Mathlib

/-!
Verification development for the apartmentbot repository.

The embedded code comes from `src/data_processor/data_classes.py`,
`src/data_processing.py`, `src/data_processor/scraped_data_processor.py`
and `src/data_processor/sqlite_operations.py`.  Python `str` becomes
`String`, `int` becomes `Int`.  Python `float` fields are never used
arithmetically in these code paths (they are only compared for equality
and converted to strings), so they are modelled as exact rationals; a
float that was parsed from a short decimal literal is modelled as the
decimal rational it denotes.
-/

namespace Apartmentbot

/-- Python `str(n)` for an integer value. -/
def pyIntStr (n : Int) : String := toString n

/-- Python `str(x)` for a float value, modelled for floats whose value has
a finite decimal expansion: the least number of decimal digits that
represents the value exactly is used, matching the shortest-repr output
Python produces on such values.  Integral values print with a trailing
`.0` exactly as Python does. -/
def pyFloatStr (q : ℚ) : String :=
  if q.den = 1 then toString q.num ++ ".0"
  else
    match (List.range 1101).find? (fun k => (q * (10 : ℚ) ^ k).den = 1) with
    | Option.none => toString q.num ++ "/" ++ toString q.den
    | Option.some k =>
      let sign := if q < 0 then "-" else ""
      let n := (q * (10 : ℚ) ^ k).num.natAbs
      let digits := Nat.toDigits 10 n
      let padded := (List.replicate (k + 1 - digits.length) '0') ++ digits
      sign ++ String.mk (padded.take (padded.length - k)) ++ "." ++
        String.mk (padded.drop (padded.length - k))

/-- The canonical listing record: `class Listing` of
`src/data_processor/data_classes.py` (lines 90-109).  The class variables
give one field per SQL column; defaults are the type-appropriate zero
values. -/
structure Listing where
  id : String
  portal : String
  active : Int
  reported : Int
  url : String
  image_url : String
  address : String
  city : String
  street : String
  house_number : String
  apartment_number : String
  n_rooms : Int
  area_m2 : ℚ
  price_eur : ℚ
  construction_year : Int
  date_listed : ℚ
  date_scraped : ℚ
  date_unlisted : ℚ
  deriving DecidableEq, Repr

/-- `Listing.__init__` (data_classes.py lines 132-136): construction copies
the class-variable defaults `str()`, `int()`, `float()`, i.e. every field
starts at its type's zero value. -/
def Listing.init : Listing where
  id := ""
  portal := ""
  active := 0
  reported := 0
  url := ""
  image_url := ""
  address := ""
  city := ""
  street := ""
  house_number := ""
  apartment_number := ""
  n_rooms := 0
  area_m2 := 0
  price_eur := 0
  construction_year := 0
  date_listed := 0
  date_scraped := 0
  date_unlisted := 0

/-- `Listing.__eq__` of `src/data_processor/data_classes.py` (lines
147-155): true only if all variables named in `__eq_variables__ = ["id",
"portal", "address", "area_m2", "price_eur"]` (line 112) match. -/
def listingEq (a b : Listing) : Bool :=
  (a.id == b.id) && (a.portal == b.portal) && (a.address == b.address) &&
    decide (a.area_m2 = b.area_m2) && decide (a.price_eur = b.price_eur)

/-- `Listing.__eq__` of `src/data_processing.py` (lines 98-109): if the
ids match it returns True immediately; otherwise the (portal, address,
area_m2, price_eur) tuples are compared. -/
def dpListingEq (a b : Listing) : Bool :=
  if a.id == b.id then true
  else (a.portal == b.portal) && (a.address == b.address) &&
    decide (a.area_m2 = b.area_m2) && decide (a.price_eur = b.price_eur)

/-- Follows the spec wording of content-equality: two records are
content-equal iff their (portal, address, area_m2, price) tuples match,
regardless of id.  This definition follows the specification text, not the
source, and exists to be compared against the code's `listingEq` and
`dpListingEq` above. -/
def specContentEq (a b : Listing) : Bool :=
  (a.portal == b.portal) && (a.address == b.address) &&
    decide (a.area_m2 = b.area_m2) && decide (a.price_eur = b.price_eur)

/-- The data Python's `hash` is applied to in `Listing.__hash__`: either
the reduced tuple without the id or the full tuple with it. -/
inductive HashBasis where
  | reduced (portal address : String) (area_m2 price_eur : ℚ)
  | full (id portal address : String) (area_m2 price_eur : ℚ)
  deriving DecidableEq, Repr

/-- `re.match("^X", s)` succeeds exactly when the string starts with the
character X. -/
def startsWithX (s : String) : Bool :=
  match s.data with
  | 'X' :: _ => true
  | _ => false

/-- `Listing.__hash__` of data_classes.py (lines 157-165): if the id is
self-generated, i.e. `re.match("^X", self.id)` succeeds, the hash is taken
over `(portal, address, area_m2, price_eur)`; otherwise over
`(id, portal, address, area_m2, price_eur)`.  The embedding records the
tuple the hash is computed from. -/
def Listing.hashBasis (l : Listing) : HashBasis :=
  if startsWithX l.id then
    HashBasis.reduced l.portal l.address l.area_m2 l.price_eur
  else
    HashBasis.full l.id l.portal l.address l.area_m2 l.price_eur

/-- The runtime type of a Listing class variable (the `str`, `int` and
`float` defaults of data_classes.py lines 92-109). -/
inductive PyType where
  | str
  | int
  | float
  deriving DecidableEq, Repr

/-- A Python value arriving at `__setattr__` or stored by it.  Every list
value reachable in this code is a list of strings (`__eq_variables__` and
the results of `list(...)` on strings), so the list constructor carries
strings. -/
inductive PyValue where
  | str (s : String)
  | int (n : Int)
  | float (q : ℚ)
  | list (elems : List String)
  | none
  deriving DecidableEq, Repr

/-- The declared data fields of `Listing` and their types: the non-dunder,
non-callable class variables that `get_class_variables` copies into each
instance. -/
def fieldType : String → Option PyType
  | "id" => Option.some PyType.str
  | "portal" => Option.some PyType.str
  | "active" => Option.some PyType.int
  | "reported" => Option.some PyType.int
  | "url" => Option.some PyType.str
  | "image_url" => Option.some PyType.str
  | "address" => Option.some PyType.str
  | "city" => Option.some PyType.str
  | "street" => Option.some PyType.str
  | "house_number" => Option.some PyType.str
  | "apartment_number" => Option.some PyType.str
  | "n_rooms" => Option.some PyType.int
  | "area_m2" => Option.some PyType.float
  | "price_eur" => Option.some PyType.float
  | "construction_year" => Option.some PyType.int
  | "date_listed" => Option.some PyType.float
  | "date_scraped" => Option.some PyType.float
  | "date_unlisted" => Option.some PyType.float
  | _ => Option.none

/-- Python `int(s)` on a string: optional sign followed by digits
(whitespace already stripped in the uses embedded here); anything else
raises ValueError, modelled as `Option.none`. -/
def pyIntOfString (s : String) : Option Int :=
  match s.data with
  | [] => Option.none
  | '-' :: ds =>
    if ds ≠ [] ∧ ds.all Char.isDigit
    then Option.some (-(Int.ofNat (String.toNat! (String.mk ds))))
    else Option.none
  | ds =>
    if ds.all Char.isDigit
    then Option.some (Int.ofNat (String.toNat! (String.mk ds)))
    else Option.none

/-- Python `float(s)` on a string: optional sign, digits, optional dot and
more digits; anything else raises ValueError, modelled as `Option.none`. -/
def pyFloatOfString (s : String) : Option ℚ :=
  let core : List Char → Option ℚ := fun ds =>
    match ds.splitOn '.' with
    | [whole] =>
      if whole ≠ [] ∧ whole.all Char.isDigit
      then Option.some ((String.toNat! (String.mk whole) : ℚ))
      else Option.none
    | [whole, frac] =>
      if whole ≠ [] ∧ frac ≠ [] ∧ whole.all Char.isDigit ∧ frac.all Char.isDigit
      then Option.some ((String.toNat! (String.mk whole) : ℚ) +
        (String.toNat! (String.mk frac) : ℚ) / (10 : ℚ) ^ frac.length)
      else Option.none
    | _ => Option.none
  match s.data with
  | '-' :: ds => (core ds).map (fun q => -q)
  | ds => core ds

/-- Python `str` of a list of strings (each element rendered in its
repr quotes). -/
def pyListRepr (xs : List String) : String :=
  let q := String.mk [Char.ofNat 39]
  "[" ++ String.intercalate ", " (xs.map (fun s => q ++ s ++ q)) ++ "]"

/-- `Listing.typecast_value` (data_classes.py lines 114-119) on the
str/int/float data fields: `None` becomes the zero value of the field
type, any other value is passed through the type constructor of the
field, which can raise for unparsable strings and non-numeric values. -/
def typecastValue (t : PyType) (v : PyValue) : Except String PyValue :=
  match v with
  | PyValue.none =>
    match t with
    | PyType.str => Except.ok (PyValue.str "")
    | PyType.int => Except.ok (PyValue.int 0)
    | PyType.float => Except.ok (PyValue.float 0)
  | PyValue.str s =>
    match t with
    | PyType.str => Except.ok (PyValue.str s)
    | PyType.int =>
      match pyIntOfString s with
      | Option.some n => Except.ok (PyValue.int n)
      | Option.none => Except.error ("invalid literal for int with base 10: " ++ s)
    | PyType.float =>
      match pyFloatOfString s with
      | Option.some q => Except.ok (PyValue.float q)
      | Option.none => Except.error ("could not convert string to float: " ++ s)
  | PyValue.int n =>
    match t with
    | PyType.str => Except.ok (PyValue.str (pyIntStr n))
    | PyType.int => Except.ok (PyValue.int n)
    | PyType.float => Except.ok (PyValue.float (n : ℚ))
  | PyValue.float q =>
    match t with
    | PyType.str => Except.ok (PyValue.str (pyFloatStr q))
    | PyType.int => Except.ok (PyValue.int (q.num.tdiv (q.den : Int)))
    | PyType.float => Except.ok (PyValue.float q)
  | PyValue.list xs =>
    match t with
    | PyType.str => Except.ok (PyValue.str (pyListRepr xs))
    | PyType.int => Except.error "TypeError: int argument must not be list"
    | PyType.float => Except.error "TypeError: float argument must not be list"

/-- The typecast of `src/data_processing.py` `__setattr__` (line 74):
`type(self.__class__.__dict__[key])(value)` with no special branch for
`None`; `str(None)` yields the string None, while `int(None)` and
`float(None)` raise TypeError. -/
def dpTypecastValue (t : PyType) (v : PyValue) : Except String PyValue :=
  match v with
  | PyValue.none =>
    match t with
    | PyType.str => Except.ok (PyValue.str "None")
    | PyType.int => Except.error "int argument must be a string or a number, not NoneType"
    | PyType.float => Except.error "float argument must be a string or a number, not NoneType"
  | _ => typecastValue t v

/-- Stores an already-typecast value in the named field. -/
def Listing.setField (l : Listing) (name : String) (v : PyValue) : Listing :=
  match name, v with
  | "id", PyValue.str s => { l with id := s }
  | "portal", PyValue.str s => { l with portal := s }
  | "active", PyValue.int n => { l with active := n }
  | "reported", PyValue.int n => { l with reported := n }
  | "url", PyValue.str s => { l with url := s }
  | "image_url", PyValue.str s => { l with image_url := s }
  | "address", PyValue.str s => { l with address := s }
  | "city", PyValue.str s => { l with city := s }
  | "street", PyValue.str s => { l with street := s }
  | "house_number", PyValue.str s => { l with house_number := s }
  | "apartment_number", PyValue.str s => { l with apartment_number := s }
  | "n_rooms", PyValue.int n => { l with n_rooms := n }
  | "area_m2", PyValue.float q => { l with area_m2 := q }
  | "price_eur", PyValue.float q => { l with price_eur := q }
  | "construction_year", PyValue.int n => { l with construction_year := n }
  | "date_listed", PyValue.float q => { l with date_listed := q }
  | "date_scraped", PyValue.float q => { l with date_scraped := q }
  | "date_unlisted", PyValue.float q => { l with date_unlisted := q }
  | _, _ => l

/-- The kind of a value sitting in the class `__dict__`: a declared
str/int/float data field, a string-valued attribute (`__module__`,
`__qualname__`), the list attribute `__eq_variables__`, a None-valued
attribute (`__doc__` of a docstring-less class, or an interpreter-set
`__hash__ = None`), or a function / slot descriptor, whose type cannot be
instantiated. -/
inductive ClassAttrType where
  | field (t : PyType)
  | pyStr
  | pyList
  | pyNone
  | callable
  deriving DecidableEq, Repr

/-- Python `list(value)`: a string iterates to its one-character strings,
a list is copied, numbers and None are not iterable. -/
def pyListOfValue (v : PyValue) : Except String PyValue :=
  match v with
  | PyValue.str s =>
    Except.ok (PyValue.list (s.data.map (fun c => String.mk [c])))
  | PyValue.list xs => Except.ok (PyValue.list xs)
  | PyValue.int _ => Except.error "TypeError: int object is not iterable"
  | PyValue.float _ => Except.error "TypeError: float object is not iterable"
  | PyValue.none => Except.error "TypeError: NoneType object is not iterable"

/-- `Listing.typecast_value` over the whole class `__dict__`: `None` maps
to `type(class_value)()` - the zero value for str/int/float fields and
string attributes, the empty list for the list attribute, `None` itself
for NoneType attributes (NoneType() is None), and a TypeError for
functions and slot descriptors, which cannot be instantiated; any other
value goes through `type(class_value)(value)`. -/
def classTypecastDC (a : ClassAttrType) (v : PyValue) : Except String PyValue :=
  match v with
  | PyValue.none =>
    match a with
    | ClassAttrType.field PyType.str => Except.ok (PyValue.str "")
    | ClassAttrType.field PyType.int => Except.ok (PyValue.int 0)
    | ClassAttrType.field PyType.float => Except.ok (PyValue.float 0)
    | ClassAttrType.pyStr => Except.ok (PyValue.str "")
    | ClassAttrType.pyList => Except.ok (PyValue.list [])
    | ClassAttrType.pyNone => Except.ok PyValue.none
    | ClassAttrType.callable =>
      Except.error "TypeError: cannot create instances of this type"
  | _ =>
    match a with
    | ClassAttrType.field t => typecastValue t v
    | ClassAttrType.pyStr => typecastValue PyType.str v
    | ClassAttrType.pyList => pyListOfValue v
    | ClassAttrType.pyNone => Except.error "TypeError: NoneType takes no arguments"
    | ClassAttrType.callable =>
      Except.error "TypeError: cannot create instances of this type"

/-- The data_processing.py typecast `type(self.__class__.__dict__[key])(value)`
over the whole class `__dict__`: there is no None branch, so `str(None)`
stores the string None while `int(None)`, `float(None)`, `list(None)` and
`NoneType(...)` raise TypeError; functions and slot descriptors always
raise. -/
def classTypecastDP (a : ClassAttrType) (v : PyValue) : Except String PyValue :=
  match a with
  | ClassAttrType.field t => dpTypecastValue t v
  | ClassAttrType.pyStr => dpTypecastValue PyType.str v
  | ClassAttrType.pyList => pyListOfValue v
  | ClassAttrType.pyNone => Except.error "TypeError: NoneType takes no arguments"
  | ClassAttrType.callable =>
    Except.error "TypeError: cannot create instances of this type"

/-- `Listing.__class__.__dict__` of `src/data_processor/data_classes.py`:
the 18 data fields, the dunder string attributes, `__eq_variables__`, the
None-valued `__doc__` (the class has no docstring), the methods, and the
`__dict__` and `__weakref__` slot descriptors. -/
def dcClassDict (name : String) : Option ClassAttrType :=
  match fieldType name with
  | Option.some t => Option.some (ClassAttrType.field t)
  | Option.none =>
    match name with
    | "__module__" => Option.some ClassAttrType.pyStr
    | "__qualname__" => Option.some ClassAttrType.pyStr
    | "__eq_variables__" => Option.some ClassAttrType.pyList
    | "__doc__" => Option.some ClassAttrType.pyNone
    | "typecast_value" => Option.some ClassAttrType.callable
    | "__setattr__" => Option.some ClassAttrType.callable
    | "__init__" => Option.some ClassAttrType.callable
    | "make_from_dict" => Option.some ClassAttrType.callable
    | "__str__" => Option.some ClassAttrType.callable
    | "__eq__" => Option.some ClassAttrType.callable
    | "__hash__" => Option.some ClassAttrType.callable
    | "assign_random_id" => Option.some ClassAttrType.callable
    | "fits_conditions" => Option.some ClassAttrType.callable
    | "matches_address" => Option.some ClassAttrType.callable
    | "__dict__" => Option.some ClassAttrType.callable
    | "__weakref__" => Option.some ClassAttrType.callable
    | _ => Option.none

/-- The data fields of the `src/data_processing.py` Listing: the same 17
fields, without `reported`. -/
def dpFieldType (name : String) : Option PyType :=
  if name == "reported" then Option.none else fieldType name

/-- `Listing.__class__.__dict__` of `src/data_processing.py`: 17 data
fields, the dunder string attributes, `__doc__` as None, `__hash__` set
to None by the interpreter because `__eq__` is defined without
`__hash__`, the methods, and the slot descriptors. -/
def dpClassDict (name : String) : Option ClassAttrType :=
  match dpFieldType name with
  | Option.some t => Option.some (ClassAttrType.field t)
  | Option.none =>
    match name with
    | "__module__" => Option.some ClassAttrType.pyStr
    | "__qualname__" => Option.some ClassAttrType.pyStr
    | "__doc__" => Option.some ClassAttrType.pyNone
    | "__hash__" => Option.some ClassAttrType.pyNone
    | "__setattr__" => Option.some ClassAttrType.callable
    | "__init__" => Option.some ClassAttrType.callable
    | "make_from_dict" => Option.some ClassAttrType.callable
    | "__str__" => Option.some ClassAttrType.callable
    | "__eq__" => Option.some ClassAttrType.callable
    | "__dict__" => Option.some ClassAttrType.callable
    | "__weakref__" => Option.some ClassAttrType.callable
    | _ => Option.none

/-- The UserWarning message raised for a name absent from the class
`__dict__` (data_classes.py line 130), without the surrounding quote
characters. -/
def unknownFieldMsg (name : String) : String :=
  name ++ " is not a variable of class Listing. Value not inserted!"

/-- `Listing.__setattr__` of `src/data_processor/data_classes.py` (lines
121-130): the membership test is `variable in self.__class__.__dict__`,
so every class-dict name passes it; a name absent from the class dict
raises UserWarning to the caller; otherwise the value is typecast
(which can itself raise) and stored via `super().__setattr__` - into the
record field for a data field, or as a shadowing instance attribute
(returned in the second component) for any other class-dict name. -/
def Listing.setattrDC (l : Listing) (name : String) (v : PyValue) :
    Except String (Listing × Option (String × PyValue)) :=
  match dcClassDict name with
  | Option.none => Except.error (unknownFieldMsg name)
  | Option.some a =>
    match classTypecastDC a v with
    | Except.error e => Except.error e
    | Except.ok cv =>
      match a with
      | ClassAttrType.field _ => Except.ok (l.setField name cv, Option.none)
      | _ => Except.ok (l, Option.some (name, cv))

/-- The log line written by the data_processing.py variant when the
UserWarning is caught (line 80). -/
def dpUnknownFieldLog (name : String) : String :=
  "While inserting " ++ name ++ ": " ++ unknownFieldMsg name

/-- `Listing.__setattr__` of `src/data_processing.py` (lines 71-81): same
class-dict membership test; the UserWarning raised for a name absent
from the class dict is caught inside the method and only logged (the
returned list holds the log lines) - the caller sees a normal return and
the value is not inserted.  A class-dict name is typecast without the
None branch (a TypeError there is not caught) and stored as for the
other variant. -/
def Listing.setattrDP (l : Listing) (name : String) (v : PyValue) :
    Except String (Listing × Option (String × PyValue) × List String) :=
  match dpClassDict name with
  | Option.none => Except.ok (l, Option.none, [dpUnknownFieldLog name])
  | Option.some a =>
    match classTypecastDP a v with
    | Except.error e => Except.error e
    | Except.ok cv =>
      match a with
      | ClassAttrType.field _ => Except.ok (l.setField name cv, Option.none, [])
      | _ => Except.ok (l, Option.some (name, cv), [])

/-- `v` already has the runtime type of the field (no coercion needed). -/
def typeMatches (t : PyType) (v : PyValue) : Bool :=
  match t, v with
  | PyType.str, PyValue.str _ => true
  | PyType.int, PyValue.int _ => true
  | PyType.float, PyValue.float _ => true
  | _, _ => false

/-- `sqlite_operations.deactivate_listing` as called by the reconciliation
loop (scraped_data_processor.py lines 172-176): `UPDATE ... SET active = 0`
on every stored row matching the given listing on all of
`__eq_variables__`, i.e. on `listingEq`. -/
def deactivateListing (m : Listing) (store : List Listing) : List Listing :=
  store.map (fun r => if listingEq m r then { r with active := 0 } else r)

/-- `sqlite_operations.set_unlisting_date` as called by the reconciliation
loop (lines 177-180): `UPDATE ... SET date_unlisted = now` on every stored
row matching the listing on `__eq_variables__`.  The date argument is the
module-level default `round(time.time(), 0)`, the run time. -/
def setUnlistingDate (m : Listing) (now : ℚ) (store : List Listing) : List Listing :=
  store.map (fun r => if listingEq m r then { r with date_unlisted := now } else r)

/-- Line 160: `{listing for listing in scraped_listings if listing not in
existing_active_listings}` - the scraped listings with no `__eq__`-equal
counterpart among the previously active rows. -/
def newListings (scraped prevActive : List Listing) : List Listing :=
  scraped.filter (fun l => !(prevActive.any (fun m => listingEq l m)))

/-- Line 169: `[listing for listing in existing_active_listings if listing
not in scraped_listings]` - the previously active rows with no
`__eq__`-equal counterpart in the scraped set. -/
def unlistedListings (scraped prevActive : List Listing) : List Listing :=
  prevActive.filter (fun m => !(scraped.any (fun l => listingEq m l)))

/-- The reconciliation body of `src/data_processor/scraped_data_processor.py`
(lines 149-181): load the rows with `active = 1`, insert every scraped
listing with no equal counterpart among them, then for every active row
that disappeared from the scrape set `active = 0` and stamp
`date_unlisted` on the rows matching it.  The store is a list of table
rows; insertion appends. -/
def processBatch (scraped store : List Listing) (now : ℚ) : List Listing :=
  let prevActive := store.filter (fun r => r.active == 1)
  let inserted := store ++ newListings scraped prevActive
  (unlistedListings scraped prevActive).foldl
    (fun st m => setUnlistingDate m now (deactivateListing m st)) inserted

/-- `validate_scraped_data` (scraped_data_processor.py lines 27-36):
draws `sample_size = 1 + int(0.02 * len(listings))` listings with
`random.sample` and checks whether any sampled listing has a non-empty
address.  `random.sample` raises ValueError when the population is smaller
than the sample size, modelled as the error case; the drawn sample itself
is passed in explicitly to model the randomness.  `int(0.02 * n)` is
modelled as `2 * n / 100` in integer arithmetic. -/
def validateScrapedData (listings : List Listing) (sample : List Listing) :
    Except String Bool :=
  let sampleSize := 1 + 2 * listings.length / 100
  if listings.length < sampleSize then
    Except.error "Sample larger than population or is negative"
  else
    Except.ok (sample.any (fun l => decide (l.address.length ≠ 0)))

/-- The per-file validation gate of the `__main__` block
(scraped_data_processor.py lines 130-137 and 139-184): when validation
fails the store is untouched and the batch file is archived with
`not_used = True`; otherwise the reconciliation body runs and the file is
archived normally.  The boolean in the result is the `not_used` flag of
`archive_scraped_data_file`. -/
def processFile (scraped store sample : List Listing) (now : ℚ) :
    Except String (List Listing × Bool) :=
  match validateScrapedData scraped sample with
  | Except.error e => Except.error e
  | Except.ok false => Except.ok (store, true)
  | Except.ok true => Except.ok (processBatch scraped store now, false)

/-- UTF-8 encoding of a single code point, as `str.encode()` produces,
written with base-64 digit arithmetic: a k-byte sequence carries the
code point's base-64 digits behind the 192/224/240 lead marker and 128
continuation markers. -/
def utf8EncodeChar (c : Char) : List Nat :=
  let n := c.toNat
  if n < 128 then [n]
  else if n < 2048 then
    [192 + n / 64, 128 + n % 64]
  else if n < 65536 then
    [224 + n / 4096, 128 + n / 64 % 64, 128 + n % 64]
  else
    [240 + n / 262144, 128 + n / 4096 % 64, 128 + n / 64 % 64, 128 + n % 64]

/-- `str.encode()`: the UTF-8 byte sequence of a string. -/
def strToBytes (s : String) : List Nat :=
  (s.data.map utf8EncodeChar).flatten

/-- All ones in a 64-bit lane. -/
def u64Mask : Nat := 2 ^ 64 - 1

/-- 64-bit left rotation on a lane value below `2 ^ 64`. -/
def rotl64 (x n : Nat) : Nat :=
  ((x <<< n) ||| (x >>> (64 - n))) &&& u64Mask

/-- The walk generating the rho rotation offsets: starting from lane
(1, 0), step t assigns offset `(t + 1) * (t + 2) / 2 mod 64` and moves to
lane `(y, 2x + 3y mod 5)`.  Returns (lane index `x + 5 * y`, offset)
pairs. -/
def keccakRotPairs : List (Nat × Nat) :=
  (((List.range 24).foldl
    (fun st t =>
      match st with
      | (pairs, x, y) =>
        (pairs ++ [(x + 5 * y, (t + 1) * (t + 2) / 2 % 64)],
          y, (2 * x + 3 * y) % 5))
    ([], 1, 0)).1)

/-- The rho rotation offset of one lane (lane 0 is never rotated). -/
def keccakRotOffset (i : Nat) : Nat :=
  match keccakRotPairs.find? (fun p => p.1 == i) with
  | Option.some p => p.2
  | Option.none => 0

/-- Keccak rotation offsets, indexed by lane index `x + 5 * y`. -/
def keccakRotOffsets : List Nat :=
  (List.range 25).map keccakRotOffset

/-- One step of the eight-bit LFSR (polynomial x^8 + x^6 + x^5 + x^4 + 1)
generating the Keccak round-constant bits. -/
def keccakLfsrStep (r : Nat) : Nat :=
  let r2 := 2 * r
  if r2 < 256 then r2 else (r2 ^^^ 113) % 256

/-- The LFSR state after t steps from the seed 1. -/
def keccakLfsrState : Nat → Nat
  | 0 => 1
  | t + 1 => keccakLfsrStep (keccakLfsrState t)

/-- The round-constant bit rc(t): the low bit of the LFSR state. -/
def keccakRcBit (t : Nat) : Nat := keccakLfsrState t % 2

/-- The round constant of round i places bit rc(j + 7 i) at position
`2 ^ j - 1` for j = 0..6. -/
def keccakRCAt (i : Nat) : Nat :=
  (List.range 7).foldl
    (fun acc j => acc + keccakRcBit (j + 7 * i) * 2 ^ (2 ^ j - 1)) 0

/-- Keccak round constants for the 24 rounds of Keccak-f[1600]. -/
def keccakRC : List Nat :=
  (List.range 24).map keccakRCAt

/-- Keccak theta step on a 25-lane state (lane `(x, y)` at index
`x + 5 * y`). -/
def keccakTheta (A : List Nat) : List Nat :=
  let C := (List.range 5).map (fun x =>
    (A.getD x 0) ^^^ (A.getD (x + 5) 0) ^^^ (A.getD (x + 10) 0) ^^^
      (A.getD (x + 15) 0) ^^^ (A.getD (x + 20) 0))
  let D := (List.range 5).map (fun x =>
    (C.getD ((x + 4) % 5) 0) ^^^ rotl64 (C.getD ((x + 1) % 5) 0) 1)
  (List.range 25).map (fun i => (A.getD i 0) ^^^ (D.getD (i % 5) 0))

/-- Keccak rho and pi steps: destination lane `(xp, yp)` receives source
lane `(3 * yp + xp mod 5, xp)` rotated by its offset. -/
def keccakRhoPi (A : List Nat) : List Nat :=
  (List.range 25).map (fun j =>
    let xp := j % 5
    let yp := j / 5
    let src := ((3 * yp + xp) % 5) + 5 * xp
    rotl64 (A.getD src 0) (keccakRotOffsets.getD src 0))

/-- Keccak chi step. -/
def keccakChi (B : List Nat) : List Nat :=
  (List.range 25).map (fun j =>
    let x := j % 5
    let y := j / 5
    (B.getD j 0) ^^^
      (((B.getD (((x + 1) % 5) + 5 * y) 0) ^^^ u64Mask) &&&
        (B.getD (((x + 2) % 5) + 5 * y) 0)))

/-- One Keccak-f round: theta, rho, pi, chi, then iota with the round
constant. -/
def keccakRound (A : List Nat) (rc : Nat) : List Nat :=
  let C := keccakChi (keccakRhoPi (keccakTheta A))
  (List.range 25).map (fun j => if j = 0 then (C.getD 0 0) ^^^ rc else C.getD j 0)

/-- The Keccak-f[1600] permutation: 24 rounds. -/
def keccakP (A : List Nat) : List Nat :=
  keccakRC.foldl keccakRound A

/-- Little-endian interpretation of up to eight bytes as a lane. -/
def bytesToLane (bs : List Nat) : Nat :=
  bs.foldr (fun b acc => b + 256 * acc) 0

/-- A 168-byte rate block as 21 lanes. -/
def loadLanes (bs : List Nat) : List Nat :=
  (List.range 21).map (fun i => bytesToLane ((bs.drop (8 * i)).take 8))

/-- XOR a block of lanes into the state (lanes past the rate are zero). -/
def xorIntoState (st lanes : List Nat) : List Nat :=
  (List.range 25).map (fun i => (st.getD i 0) ^^^ (lanes.getD i 0))

/-- SHAKE padding at rate 168: append the domain byte 0x1F, zero-fill to a
multiple of the rate and set the top bit of the final byte. -/
def shakePad (msg : List Nat) : List Nat :=
  let r := 168
  let padLen := r - msg.length % r
  if padLen = 1 then msg ++ [0x9F]
  else msg ++ [0x1F] ++ List.replicate (padLen - 2) 0 ++ [0x80]

/-- Absorb `k` rate-sized blocks of `bs` into the state. -/
def absorbBlocksAux : Nat → List Nat → List Nat → List Nat
  | 0, st, _ => st
  | k + 1, st, bs =>
    absorbBlocksAux k (keccakP (xorIntoState st (loadLanes (bs.take 168)))) (bs.drop 168)

/-- Absorb a padded message (length a multiple of 168) into the state. -/
def absorbBlocks (st bs : List Nat) : List Nat :=
  absorbBlocksAux (bs.length / 168) st bs

/-- The eight bytes of a lane, little-endian. -/
def laneToBytes (x : Nat) : List Nat :=
  (List.range 8).map (fun i => (x >>> (8 * i)) % 256)

/-- The 168 rate bytes of the state. -/
def stateBytes (st : List Nat) : List Nat :=
  ((st.take 21).map laneToBytes).flatten

/-- Squeeze `k` rate-sized blocks of output from the state. -/
def squeezeBlocks : Nat → List Nat → List Nat
  | 0, _ => []
  | k + 1, st => stateBytes st ++ squeezeBlocks k (keccakP st)

/-- `hashlib.shake_128(msg).digest(n)`: the first `n` bytes squeezed from
the sponge after absorbing the padded message. -/
def shake128Bytes (msg : List Nat) (n : Nat) : List Nat :=
  (squeezeBlocks (n / 168 + 1) (absorbBlocks (List.replicate 25 0) (shakePad msg))).take n

/-- Lowercase hexadecimal digit. -/
def hexChar (n : Nat) : Char :=
  if n < 10 then Char.ofNat (48 + n) else Char.ofNat (87 + n)

/-- Lowercase hexadecimal rendering of a byte sequence, two digits per
byte, as `hexdigest` produces. -/
def bytesToHexChars (bs : List Nat) : List Char :=
  (bs.map (fun b => [hexChar (b / 16 % 16), hexChar (b % 16)])).flatten

/-- `hashlib.shake_128(msg).hexdigest(n)`. -/
def shake128Hexdigest (msg : List Nat) (n : Nat) : String :=
  String.mk (bytesToHexChars (shake128Bytes msg n))

/-- Python `str.upper()` on the ASCII strings produced here. -/
def pyUpper (s : String) : String :=
  String.mk (s.data.map Char.toUpper)

/-- `hash_length = 7` of `generate_listing_id` / `assign_random_id`. -/
def hashLength : Nat := 7

/-- The byte count handed to `hexdigest`: `int(hash_length - 1 / 2)`.
By Python operator precedence this is `int(7 - 0.5) = int(6.5) = 6`, not
`(7 - 1) / 2 = 3`. -/
def digestByteCount : Nat :=
  (((hashLength : ℚ) - 1 / 2).floor).toNat

/-- `generate_listing_id` (src/data_processing.py lines 144-155) and the
identical `Listing.assign_random_id` (data_classes.py lines 167-176):
SHAKE-128 over the seed string built from `area_m2` and `address`,
rendered as hex, prefixed with X and upper-cased. -/
def generateListingId (area_m2 : ℚ) (address : String) : String :=
  let hashSeed := pyFloatStr area_m2 ++ " " ++ address
  let listingHash := shake128Hexdigest (strToBytes hashSeed) digestByteCount
  pyUpper ("X" ++ listingHash)

/-- `Listing.assign_random_id` stores the generated id on the listing. -/
def Listing.assignRandomId (l : Listing) : Listing :=
  { l with id := generateListingId l.area_m2 l.address }

/-- Python regex `\w` on the character repertoire appearing in this
repository's addresses: ASCII alphanumerics, underscore and the Estonian
letters. -/
def isWordChar (c : Char) : Bool :=
  ['õ', 'ä', 'ö', 'ü', 'Õ', 'Ä', 'Ö', 'Ü', '_'].contains c || c.isAlphanum

/-- Python regex `\s`: space, tab, line feed, carriage return, vertical
tab and form feed, by code point. -/
def isSpaceChar (c : Char) : Bool :=
  [32, 9, 10, 13, 11, 12].contains c.toNat

/-- `city_pattern = re.compile(r"^\w+,\s*(\w+)\s*,")` applied with
`findall` (data_processing.py line 371): anchored at the start, so at most
one match, found by maximal munch - the classes `\w`, `\s` and the comma
are pairwise disjoint, so no backtracking can arise.  Returns the list of
captures of group 1. -/
def kvCityFindall (s : List Char) : List String :=
  let w1 := s.takeWhile isWordChar
  let rest1 := s.dropWhile isWordChar
  if w1.isEmpty then []
  else
    match rest1 with
    | ',' :: rest2 =>
      let rest3 := rest2.dropWhile isSpaceChar
      let w2 := rest3.takeWhile isWordChar
      let rest4 := rest3.dropWhile isWordChar
      if w2.isEmpty then []
      else
        match rest4.dropWhile isSpaceChar with
        | ',' :: _ => [String.mk w2]
        | _ => []
    | _ => []

/-- `street_address_pattern = re.compile(r".*(?<!\d),(.+?)$")` applied
with `findall` (line 372): the greedy `.*` selects the last comma that is
not immediately preceded by a digit and is not the final character; the
lazy anchored group then captures everything after that comma.  Returns
the list of captures of group 1. -/
def kvStreetSegmentFindall (s : List Char) : List String :=
  let good := (List.range s.length).filter (fun i =>
    (s.getD i ' ' == ',') &&
      (decide (i = 0) || !(s.getD (i - 1) ' ').isDigit) &&
      decide (i + 1 < s.length))
  match good.getLast? with
  | Option.none => []
  | Option.some i => [String.mk (s.drop (i + 1))]

/-- `superfluous_comma_pattern = re.compile(r" ?, ?")` with `sub("/", .)`
(line 373): every comma, together with one optional adjacent space on
each side, becomes a slash; left-to-right non-overlapping greedy
matching. -/
def subCommaSlash : List Char → List Char
  | [] => []
  | ' ' :: ',' :: ' ' :: rest => '/' :: subCommaSlash rest
  | ' ' :: ',' :: rest => '/' :: subCommaSlash rest
  | ',' :: ' ' :: rest => '/' :: subCommaSlash rest
  | ',' :: rest => '/' :: subCommaSlash rest
  | c :: rest => c :: subCommaSlash rest

/-- `street_abbreviation_pattern = re.compile(r" tn")` with `sub("", .)`
(line 374): every occurrence of the three characters space-t-n is
removed. -/
def subSpaceTn : List Char → List Char
  | [] => []
  | ' ' :: 't' :: 'n' :: rest => subSpaceTn rest
  | c :: rest => c :: subSpaceTn rest

/-- Python `str.strip()`: whitespace removed from both ends. -/
def pyStrip (s : List Char) : List Char :=
  ((s.dropWhile isSpaceChar).reverse.dropWhile isSpaceChar).reverse

/-- `apartment_number_pattern = re.compile(r"-(\w+)$")` with `findall`
(line 375): a match exists iff the suffix after the last hyphen is
non-empty and consists of word characters (an earlier hyphen cannot match
because its suffix would contain the later hyphen). -/
def kvApartmentFindall (s : List Char) : List String :=
  let suffix := (s.reverse.takeWhile (fun c => c != '-')).reverse
  if s.contains '-' && !suffix.isEmpty && suffix.all isWordChar
  then [String.mk suffix] else []

/-- `apartment_cleanup_pattern = re.compile(r"-[^-]{0,3}$")` with
`sub("", .)` (line 376): when the suffix after the last hyphen has at
most three characters, that hyphen and suffix are removed. -/
def kvApartmentCleanup (s : List Char) : List Char :=
  let suffix := s.reverse.takeWhile (fun c => c != '-')
  if s.contains '-' && decide (suffix.length ≤ 3)
  then s.take (s.length - (suffix.length + 1)) else s

/-- Characters allowed in a house number: `[\w/]`. -/
def isHouseChar (c : Char) : Bool :=
  isWordChar c || c == '/'

/-- `house_number_pattern = re.compile(r" ([\w/]+)$")` with `findall`
(line 377): a match exists iff the suffix after the last space is
non-empty and consists of `[\w/]` characters. -/
def kvHouseNumberFindall (s : List Char) : List String :=
  let suffix := (s.reverse.takeWhile (fun c => c != ' ')).reverse
  if s.contains ' ' && !suffix.isEmpty && suffix.all isHouseChar
  then [String.mk suffix] else []

/-- `house_number_pattern.sub("", .)` (line 406): the matched space and
suffix are removed, when the pattern matches at all. -/
def kvHouseNumberSub (s : List Char) : List Char :=
  let suffix := (s.reverse.takeWhile (fun c => c != ' ')).reverse
  if s.contains ' ' && !suffix.isEmpty && suffix.all isHouseChar
  then s.take (s.length - (suffix.length + 1)) else s

/-- The record returned by `kv_parse_address`. -/
structure AddressParts where
  city : String
  street : String
  house_number : String
  apartment_number : String
  deriving DecidableEq, Repr

/-- `kv_parse_address` (src/data_processing.py lines 361-424): city from
the anchored pattern, the street segment from the last comma not preceded
by a digit, in-segment commas merged to slashes, the street-type
abbreviation stripped, then apartment number, house number and street
name recovered from the segment.  Each `findall` result is used only when
it has exactly one element; otherwise the empty string stands in. -/
def kvParseAddress (address : String) : AddressParts :=
  let city := match kvCityFindall address.data with
    | [c] => c
    | _ => ""
  let seg0 := match kvStreetSegmentFindall address.data with
    | [x] => x
    | _ => ""
  let seg1 := subCommaSlash seg0.data
  let seg2 := pyStrip (subSpaceTn seg1)
  let apartment := match kvApartmentFindall seg2 with
    | [a] => a
    | _ => ""
  let truncated := kvApartmentCleanup seg2
  let house := match kvHouseNumberFindall truncated with
    | [h] => h
    | _ => ""
  let streetName := kvHouseNumberSub truncated
  { city := city
    street := String.mk streetName
    house_number := house
    apartment_number := apartment }

/-- A previously active stored row. -/
def lstActiveOld : Listing :=
  { Listing.init with
      id := "1", portal := "c24", address := "Foo 1",
      area_m2 := 50, price_eur := 100000, active := 1 }

/-- A scraped listing with no counterpart in the store. -/
def lstScrapedNew : Listing :=
  { Listing.init with
      id := "2", portal := "c24", address := "Bar 2",
      area_m2 := 60, price_eur := 200000, active := 1 }

/-- A scraped listing content-equal to `lstActiveOld` but carrying a
different portal id. -/
def lstScrapedDup : Listing :=
  { lstActiveOld with id := "3" }

/-- A listing with a self-generated id (X-prefixed). -/
def lstGenId : Listing :=
  { Listing.init with
      id := "X808E366A2772", portal := "kv", address := "Foo 1",
      area_m2 := 50, price_eur := 100000, active := 1 }

/-- First listing of the determinism pair: only area_m2 and address
matter to the generator. -/
def lstSeedFirst : Listing :=
  { Listing.init with area_m2 := 50, address := "Foo 1", price_eur := 1 }

/-- Second listing of the determinism pair: same area_m2 and address,
different id, price and url. -/
def lstSeedSecond : Listing :=
  { Listing.init with
      area_m2 := 50, address := "Foo 1",
      price_eur := 2, id := "9", url := "somewhere" }

/-- The combined effect of the two SQL updates issued for one disappeared
listing on a matching row: `active = 0` and `date_unlisted = now`. -/
def deactUpd (now : ℚ) (r : Listing) : Listing :=
  { r with active := 0, date_unlisted := now }

/-
Theorems.
-/

/-- Unfolding of the data_classes `__eq__` into componentwise equality. -/
theorem listingEq_iff (a b : Listing) :
    listingEq a b = true ↔
      (a.id = b.id ∧ a.portal = b.portal ∧ a.address = b.address ∧
        a.area_m2 = b.area_m2 ∧ a.price_eur = b.price_eur) := by
  simp [listingEq, and_assoc]

/-- The data_classes `__eq__` is reflexive. -/
theorem listingEq_refl (a : Listing) : listingEq a a = true := by
  simp [listingEq]

/-- The data_classes `__eq__` is symmetric. -/
theorem listingEq_comm (a b : Listing) : listingEq a b = listingEq b a := by
  rw [Bool.eq_iff_iff, listingEq_iff, listingEq_iff]
  constructor <;> rintro ⟨h1, h2, h3, h4, h5⟩ <;>
    exact ⟨h1.symm, h2.symm, h3.symm, h4.symm, h5.symm⟩

/-- The data_classes `__eq__` is transitive. -/
theorem listingEq_trans {a b c : Listing} (hab : listingEq a b = true)
    (hbc : listingEq b c = true) : listingEq a c = true := by
  obtain ⟨h1, h2, h3, h4, h5⟩ := (listingEq_iff a b).mp hab
  obtain ⟨g1, g2, g3, g4, g5⟩ := (listingEq_iff b c).mp hbc
  exact (listingEq_iff a c).mpr
    ⟨h1.trans g1, h2.trans g2, h3.trans g3, h4.trans g4, h5.trans g5⟩

/-- C1 counterexample: two records agreeing on the whole
(portal, address, area_m2, price_eur) content tuple but carrying
different ids are not equal under the code's `Listing.__eq__`, because
`__eq_variables__` also names the id. -/
theorem c1_content_equality_counterexample :
    specContentEq lstActiveOld lstScrapedDup = true ∧
      lstActiveOld.id ≠ lstScrapedDup.id ∧
      listingEq lstActiveOld lstScrapedDup = false := by
  refine ⟨by decide, by decide, by decide⟩

/-- C1 (amended): in the data_classes.py variant `a == b` iff id, portal,
address, area_m2 and price_eur all match, so equality is not independent
of the id; in the data_processing.py variant `a == b` iff the ids match
or the (portal, address, area_m2, price_eur) tuples match. -/
theorem c1_eq_characterization (a b : Listing) :
    (listingEq a b = true ↔
      (a.id = b.id ∧ a.portal = b.portal ∧ a.address = b.address ∧
        a.area_m2 = b.area_m2 ∧ a.price_eur = b.price_eur)) ∧
    (dpListingEq a b = true ↔
      (a.id = b.id ∨ (a.portal = b.portal ∧ a.address = b.address ∧
        a.area_m2 = b.area_m2 ∧ a.price_eur = b.price_eur))) := by
  refine ⟨listingEq_iff a b, ?_⟩
  by_cases h : a.id = b.id
  · simp [dpListingEq, h]
  · simp [dpListingEq, h, and_assoc]

/-- C5: the tuple fed to `hash` in `Listing.__hash__` is the reduced
(portal, address, area_m2, price_eur) tuple when the id starts with the
reserved marker X, and the full tuple including the id otherwise; records
equal under `Listing.__eq__` always hash from the same tuple. -/
theorem c5_hash_basis (l : Listing) :
    (startsWithX l.id = true →
      l.hashBasis = HashBasis.reduced l.portal l.address l.area_m2 l.price_eur) ∧
    (startsWithX l.id = false →
      l.hashBasis = HashBasis.full l.id l.portal l.address l.area_m2 l.price_eur) ∧
    (∀ b, listingEq l b = true → l.hashBasis = b.hashBasis) := by
  refine ⟨fun h => by simp [Listing.hashBasis, h],
    fun h => by simp [Listing.hashBasis, h], fun b hb => ?_⟩
  obtain ⟨h1, h2, h3, h4, h5⟩ := (listingEq_iff l b).mp hb
  unfold Listing.hashBasis
  rw [h1, h2, h3, h4, h5]

/-- Witness for C5 at concrete records: a generated-id listing hashes
from the reduced tuple, a portal-id listing from the full tuple, and a
pair of equal listings hashes identically. -/
theorem c5_hash_basis_witness :
    lstGenId.hashBasis =
      HashBasis.reduced lstGenId.portal lstGenId.address lstGenId.area_m2 lstGenId.price_eur ∧
    lstActiveOld.hashBasis =
      HashBasis.full lstActiveOld.id lstActiveOld.portal lstActiveOld.address
        lstActiveOld.area_m2 lstActiveOld.price_eur ∧
    lstActiveOld.hashBasis = lstActiveOld.hashBasis :=
  ⟨(c5_hash_basis lstGenId).1 (by decide),
   (c5_hash_basis lstActiveOld).2.1 (by decide),
   (c5_hash_basis lstActiveOld).2.2 lstActiveOld (by decide)⟩

/-- Neither update of a disappeared listing changes any `__eq_variables__`
column, so row matching is unchanged by the updates. -/
theorem listingEq_deactUpd (x r : Listing) (now : ℚ) :
    listingEq x (deactUpd now r) = listingEq x r := rfl

/-- Setting `active` alone also leaves row matching unchanged. -/
theorem listingEq_set_active (m r : Listing) (x : Int) :
    listingEq m { r with active := x } = listingEq m r := rfl

/-- The two per-listing SQL updates fused into one map over the store. -/
theorem deactivate_then_stamp (m : Listing) (now : ℚ) (st : List Listing) :
    setUnlistingDate m now (deactivateListing m st) =
      st.map (fun r => if listingEq m r then deactUpd now r else r) := by
  unfold setUnlistingDate deactivateListing
  rw [List.map_map]
  refine List.map_congr_left (fun r _ => ?_)
  by_cases h : listingEq m r = true
  · simp only [Function.comp_apply, h, if_true, listingEq_set_active]
    rfl
  · rw [Bool.not_eq_true] at h
    simp [h]

/-- Folding the per-listing update over a pairwise-non-equal list of
disappeared listings acts on every stored row at most once. -/
theorem foldl_updates (now : ℚ) (ms : List Listing) :
    ms.Pairwise (fun a b => listingEq a b = false) →
    ∀ (st : List Listing),
      ms.foldl (fun acc m =>
          acc.map (fun r => if listingEq m r then deactUpd now r else r)) st =
        st.map (fun r =>
          if ms.any (fun m => listingEq m r) then deactUpd now r else r) := by
  induction ms with
  | nil =>
    intro _ st
    simp
  | cons m ms ih =>
    intro hp st
    rw [List.foldl_cons, ih hp.of_cons, List.map_map]
    refine List.map_congr_left (fun r _ => ?_)
    by_cases h : listingEq m r = true
    · have hms : ms.any (fun x => listingEq x r) = false := by
        rw [Bool.eq_false_iff]
        intro hx
        obtain ⟨x, hxmem, hxr⟩ := List.any_eq_true.mp hx
        have hmx : listingEq m x = false :=
          (List.pairwise_cons.mp hp).1 x hxmem
        have hmx' : listingEq m x = true :=
          listingEq_trans h (by rw [listingEq_comm]; exact hxr)
        rw [hmx] at hmx'
        exact Bool.noConfusion hmx'
      simp [Function.comp_apply, listingEq_deactUpd, h, hms]
      intro x _ _
      rfl
    · rw [Bool.not_eq_true] at h
      simp [Function.comp_apply, h]

/-- Matching against the active subset of the store, expressed as one
pass over the whole store. -/
theorem any_filter_active (l : Listing) (store : List Listing) :
    ((store.filter (fun r => r.active == 1)).any (fun m => listingEq l m)) =
      store.any (fun m => (m.active == 1) && listingEq l m) := by
  induction store with
  | nil => rfl
  | cons a as ih =>
    by_cases ha : (a.active == 1) = true <;>
      simp [List.filter_cons, ha, ih]

/-- The equality relation of the store rows is symmetric as a
Prop-valued relation on being unequal. -/
theorem listingNe_symmetric :
    Symmetric (fun a b : Listing => listingEq a b = false) := by
  intro a b h
  rwa [listingEq_comm]

/-- Characterization of the reconciliation body, assuming stored rows are
pairwise non-equal (id is meant to be the table's unique primary key):
stored rows that were active and disappeared from the scrape get
`active = 0` and `date_unlisted = now`; every other stored row is
untouched; the scraped listings with no equal active counterpart are
appended unchanged. -/
theorem processBatch_spec (scraped store : List Listing) (now : ℚ)
    (hstore : store.Pairwise (fun a b => listingEq a b = false)) :
    processBatch scraped store now =
      (store.map (fun r =>
        if (r.active == 1) && !(scraped.any (fun l => listingEq r l))
        then deactUpd now r else r)) ++
      (scraped.filter (fun l =>
        !(store.any (fun m => (m.active == 1) && listingEq l m)))) := by
  have hU : (unlistedListings scraped
      (store.filter (fun r => r.active == 1))).Pairwise
      (fun a b => listingEq a b = false) := by
    unfold unlistedListings
    exact List.Pairwise.sublist
      ((List.filter_sublist _).trans (List.filter_sublist _)) hstore
  unfold processBatch
  simp only [deactivate_then_stamp]
  rw [foldl_updates now _ hU]
  rw [List.map_append]
  have hNewFix : newListings scraped (store.filter (fun r => r.active == 1)) =
      scraped.filter (fun l =>
        !(store.any (fun m => (m.active == 1) && listingEq l m))) := by
    unfold newListings
    refine List.filter_congr (fun l _ => ?_)
    rw [any_filter_active]
  have hNewUntouched : ∀ l ∈ newListings scraped (store.filter (fun r => r.active == 1)),
      (unlistedListings scraped
        (store.filter (fun r => r.active == 1))).any
        (fun m => listingEq m l) = false := by
    intro l hl
    rw [Bool.eq_false_iff]
    intro hx
    obtain ⟨x, hxmem, hxl⟩ := List.any_eq_true.mp hx
    have hxprop := List.mem_filter.mp hxmem
    have hany : scraped.any (fun s => listingEq x s) = true :=
      List.any_eq_true.mpr ⟨l, (List.mem_filter.mp hl).1, hxl⟩
    have h2 := hxprop.2
    rw [Bool.not_eq_true'] at h2
    rw [hany] at h2
    exact Bool.noConfusion h2
  have hMapNew : (newListings scraped (store.filter (fun r => r.active == 1))).map
      (fun r => if (unlistedListings scraped
          (store.filter (fun r => r.active == 1))).any
          (fun m => listingEq m r) then deactUpd now r else r) =
      newListings scraped (store.filter (fun r => r.active == 1)) := by
    calc (newListings scraped (store.filter (fun r => r.active == 1))).map _
        = (newListings scraped (store.filter (fun r => r.active == 1))).map id := by
          refine List.map_congr_left (fun l hl => ?_)
          rw [hNewUntouched l hl]
          rfl
      _ = _ := List.map_id _
  rw [hMapNew, hNewFix]
  congr 1
  refine List.map_congr_left (fun r hr => ?_)
  have key : (unlistedListings scraped
      (store.filter (fun r => r.active == 1))).any (fun m => listingEq m r) =
      ((r.active == 1) && !(scraped.any (fun l => listingEq r l))) := by
    rw [Bool.eq_iff_iff]
    constructor
    · intro hx
      obtain ⟨x, hxmem, hxr⟩ := List.any_eq_true.mp hx
      have hxprop := List.mem_filter.mp hxmem
      have hxstore := (List.mem_filter.mp hxprop.1).1
      have hxact := (List.mem_filter.mp hxprop.1).2
      have hxeq : x = r := by
        by_contra hne
        have hfalse := List.Pairwise.forall listingNe_symmetric hstore hxstore hr hne
        rw [hxr] at hfalse
        exact Bool.noConfusion hfalse
      subst hxeq
      rw [Bool.and_eq_true]
      refine ⟨hxact, ?_⟩
      have h2 := hxprop.2
      rw [Bool.not_eq_true'] at h2
      rw [Bool.not_eq_true']
      calc scraped.any (fun l => listingEq x l)
          = scraped.any (fun l => listingEq x l) := rfl
        _ = false := h2
    · intro hcond
      rw [Bool.and_eq_true] at hcond
      refine List.any_eq_true.mpr ⟨r, ?_, listingEq_refl r⟩
      refine List.mem_filter.mpr ⟨List.mem_filter.mpr ⟨hr, hcond.1⟩, ?_⟩
      have h2 := hcond.2
      rw [Bool.not_eq_true'] at h2
      rw [Bool.not_eq_true']
      exact h2
  rw [key]

/-- C2 counterexample: the scraped record is content-equal (in the
spec's sense, id excluded) to the stored active record, so the claim
says nothing is inserted and nothing is expired; the code nevertheless
inserts the scraped record and deactivates and date-stamps the stored
one, because its membership tests use the id-including `__eq__`. -/
theorem c2_reconciliation_counterexample :
    specContentEq lstScrapedDup lstActiveOld = true ∧
      lstScrapedDup.id ≠ lstActiveOld.id ∧
      processBatch [lstScrapedDup] [lstActiveOld] 5 =
        [deactUpd 5 lstActiveOld, lstScrapedDup] :=
  ⟨by decide, by decide, by decide⟩

/-- C2 (amended): reconciliation inserts (carrying their scraped
`active = 1`) exactly those scraped records having no counterpart among
the previously active records under the code's `__eq__` - which compares
the id as well as portal, address, area_m2 and price_eur - and for
exactly those previously active records having no such counterpart in
the scraped set it rewrites them to `active = 0` with `date_unlisted`
set to the run time; all other stored rows are returned unchanged
(stored rows assumed pairwise distinct under `__eq__`, as the unique
primary key intends). -/
theorem c2_reconciliation (scraped store : List Listing) (now : ℚ)
    (hstore : store.Pairwise (fun a b => listingEq a b = false))
    (hscraped : ∀ l ∈ scraped, l.active = 1) :
    processBatch scraped store now =
      (store.map (fun r =>
        if (r.active == 1) && !(scraped.any (fun l => listingEq r l))
        then deactUpd now r else r)) ++
      (scraped.filter (fun l =>
        !(store.any (fun m => (m.active == 1) && listingEq l m)))) ∧
    ∀ l ∈ scraped.filter (fun l =>
        !(store.any (fun m => (m.active == 1) && listingEq l m))),
      l.active = 1 :=
  ⟨processBatch_spec scraped store now hstore,
   fun l hl => hscraped l (List.mem_of_mem_filter hl)⟩

/-- Witness for C2 at a concrete store and scrape set. -/
theorem c2_reconciliation_witness :
    (([lstActiveOld] : List Listing).Pairwise
      (fun a b => listingEq a b = false)) ∧
    (∀ l ∈ ([lstScrapedNew] : List Listing), l.active = 1) ∧
    (processBatch [lstScrapedNew] [lstActiveOld] 5 =
      (([lstActiveOld] : List Listing).map (fun r =>
        if (r.active == 1) && !(([lstScrapedNew] : List Listing).any
          (fun l => listingEq r l))
        then deactUpd 5 r else r)) ++
      (([lstScrapedNew] : List Listing).filter (fun l =>
        !(([lstActiveOld] : List Listing).any
          (fun m => (m.active == 1) && listingEq l m)))) ∧
    ∀ l ∈ ([lstScrapedNew] : List Listing).filter (fun l =>
        !(([lstActiveOld] : List Listing).any
          (fun m => (m.active == 1) && listingEq l m))),
      l.active = 1) :=
  ⟨by simp, by decide,
   c2_reconciliation [lstScrapedNew] [lstActiveOld] 5 (by simp) (by decide)⟩

/-- C6: a second run of the reconciliation body with the same scraped
set, taking the active rows of the first run's output store as the
previously active set, classifies zero records as new and zero records
as unlisted. -/
theorem c6_reconciliation_idempotent (scraped store : List Listing) (now : ℚ)
    (hstore : store.Pairwise (fun a b => listingEq a b = false))
    (hscraped : ∀ l ∈ scraped, l.active = 1) :
    newListings scraped
        ((processBatch scraped store now).filter (fun r => r.active == 1)) = [] ∧
      unlistedListings scraped
        ((processBatch scraped store now).filter (fun r => r.active == 1)) = [] := by
  rw [processBatch_spec scraped store now hstore]
  rw [List.filter_append]
  constructor
  · unfold newListings
    rw [List.filter_eq_nil_iff]
    intro l hl
    rw [Bool.not_eq_true, Bool.not_eq_false']
    rw [List.any_append]
    by_cases hc : store.any (fun m => (m.active == 1) && listingEq l m) = true
    · obtain ⟨m, hmmem, hmcond⟩ := List.any_eq_true.mp hc
      rw [Bool.and_eq_true] at hmcond
      have hgm : (if (m.active == 1) && !(scraped.any (fun s => listingEq m s))
          then deactUpd now m else m) = m := by
        have hms : scraped.any (fun s => listingEq m s) = true :=
          List.any_eq_true.mpr ⟨l, hl, by rw [listingEq_comm]; exact hmcond.2⟩
        rw [hms]
        simp
      have hin : m ∈ (store.map (fun r =>
          if (r.active == 1) && !(scraped.any (fun s => listingEq r s))
          then deactUpd now r else r)).filter (fun r => r.active == 1) := by
        refine List.mem_filter.mpr ⟨?_, hmcond.1⟩
        exact List.mem_map.mpr ⟨m, hmmem, hgm⟩
      have : ((store.map (fun r =>
          if (r.active == 1) && !(scraped.any (fun s => listingEq r s))
          then deactUpd now r else r)).filter (fun r => r.active == 1)).any
          (fun m => listingEq l m) = true :=
        List.any_eq_true.mpr ⟨m, hin, hmcond.2⟩
      rw [this]
      exact Bool.true_or _
    · have hmem : l ∈ (scraped.filter (fun s =>
          !(store.any (fun m => (m.active == 1) && listingEq s m)))).filter
          (fun r => r.active == 1) := by
        refine List.mem_filter.mpr ⟨List.mem_filter.mpr ⟨hl, ?_⟩, ?_⟩
        · rw [Bool.not_eq_true] at hc
          rw [Bool.not_eq_true']
          exact hc
        · have := hscraped l hl
          rw [this]
          rfl
      have : ((scraped.filter (fun s =>
          !(store.any (fun m => (m.active == 1) && listingEq s m)))).filter
          (fun r => r.active == 1)).any (fun m => listingEq l m) = true :=
        List.any_eq_true.mpr ⟨l, hmem, listingEq_refl l⟩
      rw [this]
      exact Bool.or_true _
  · unfold unlistedListings
    rw [List.filter_eq_nil_iff]
    intro m hm
    rw [Bool.not_eq_true, Bool.not_eq_false']
    rcases List.mem_append.mp hm with hleft | hright
    · obtain ⟨r, hrmem, hrg⟩ := List.mem_map.mp (List.mem_filter.mp hleft).1
      have hact := (List.mem_filter.mp hleft).2
      by_cases hcr : ((r.active == 1) &&
          !(scraped.any (fun s => listingEq r s))) = true
      · rw [hcr] at hrg
        simp only [if_true] at hrg
        rw [← hrg] at hact
        exact Bool.noConfusion hact
      · rw [Bool.not_eq_true] at hcr
        rw [hcr] at hrg
        simp only [Bool.false_eq_true, if_false] at hrg
        subst hrg
        rw [Bool.and_eq_false_iff] at hcr
        rcases hcr with h1 | h2
        · rw [hact] at h1
          exact Bool.noConfusion h1
        · rw [Bool.not_eq_false'] at h2
          exact h2
    · have : m ∈ scraped := (List.mem_filter.mp (List.mem_filter.mp hright).1).1
      exact List.any_eq_true.mpr ⟨m, this, listingEq_refl m⟩

/-- Witness for C6 at a concrete store and scrape set. -/
theorem c6_reconciliation_idempotent_witness :
    (([lstActiveOld] : List Listing).Pairwise
      (fun a b => listingEq a b = false)) ∧
    (∀ l ∈ ([lstScrapedNew] : List Listing), l.active = 1) ∧
    (newListings [lstScrapedNew]
        ((processBatch [lstScrapedNew] [lstActiveOld] 5).filter
          (fun r => r.active == 1)) = [] ∧
      unlistedListings [lstScrapedNew]
        ((processBatch [lstScrapedNew] [lstActiveOld] 5).filter
          (fun r => r.active == 1)) = []) :=
  ⟨by simp, by decide,
   c6_reconciliation_idempotent [lstScrapedNew] [lstActiveOld] 5
     (by simp) (by decide)⟩

/-- `int(hash_length - 1 / 2)` evaluates to 6: Python divides first, so
the argument is `int(6.5)`. -/
theorem digestByteCount_eq : digestByteCount = 6 := by
  have h : ((hashLength : ℚ) - 1 / 2) = 13 / 2 := by norm_num [hashLength]
  rw [digestByteCount, h]
  have h2 : ((13 / 2 : ℚ)).floor = 6 := by
    rw [Rat.floor_def']
    norm_num
  rw [h2]
  rfl

/-- Every Keccak round returns a 25-lane state. -/
theorem keccakRound_length (A : List Nat) (rc : Nat) :
    (keccakRound A rc).length = 25 := by
  simp [keccakRound]

/-- The permutation returns a 25-lane state. -/
theorem keccakP_length (A : List Nat) : (keccakP A).length = 25 := by
  simp only [keccakP, keccakRC, List.foldl_cons, List.foldl_nil]
  exact keccakRound_length _ _

/-- Absorbing preserves the 25-lane state shape. -/
theorem absorbBlocksAux_length (k : Nat) : ∀ (st bs : List Nat),
    st.length = 25 → (absorbBlocksAux k st bs).length = 25 := by
  induction k with
  | zero => intro st bs h; exact h
  | succ k ih => intro st bs h; exact ih _ _ (keccakP_length _)

/-- Each lane renders to eight bytes. -/
theorem laneToBytes_length (x : Nat) : (laneToBytes x).length = 8 := by
  simp [laneToBytes]

/-- Sum of the lengths of constant-length blocks. -/
theorem sum_map_length_const {α : Type} (l : List α) (f : α → List Nat)
    (c : Nat) (h : ∀ a, (f a).length = c) :
    ((l.map f).map List.length).sum = l.length * c := by
  induction l with
  | nil => simp
  | cons a l ih =>
    rw [List.map_map] at ih
    simp [h, ih]
    ring

/-- A 25-lane state renders 168 rate bytes. -/
theorem stateBytes_length (st : List Nat) (h : st.length = 25) :
    (stateBytes st).length = 168 := by
  unfold stateBytes
  rw [List.length_flatten, sum_map_length_const _ _ 8 laneToBytes_length,
    List.length_take, h]
  decide

/-- Squeezing yields 168 bytes per block. -/
theorem squeezeBlocks_length (k : Nat) : ∀ st, st.length = 25 →
    (squeezeBlocks k st).length = k * 168 := by
  induction k with
  | zero => intro st _; rfl
  | succ k ih =>
    intro st h
    show (stateBytes st ++ squeezeBlocks k (keccakP st)).length = (k + 1) * 168
    rw [List.length_append, stateBytes_length st h, ih _ (keccakP_length st)]
    ring

/-- The digest has exactly the requested byte count. -/
theorem shake128Bytes_length (msg : List Nat) (n : Nat) :
    (shake128Bytes msg n).length = n := by
  unfold shake128Bytes
  have h25 : (absorbBlocks (List.replicate 25 0) (shakePad msg)).length = 25 := by
    unfold absorbBlocks
    exact absorbBlocksAux_length _ _ _ (by simp)
  rw [List.length_take, squeezeBlocks_length _ _ h25]
  have hle : n ≤ (n / 168 + 1) * 168 := by
    have hmod : n % 168 < 168 := Nat.mod_lt n (by norm_num)
    calc n = 168 * (n / 168) + n % 168 := (Nat.div_add_mod n 168).symm
      _ ≤ 168 * (n / 168) + 168 := by omega
      _ = (n / 168 + 1) * 168 := by ring
  omega

/-- Hex rendering is two characters per byte. -/
theorem bytesToHexChars_length (bs : List Nat) :
    (bytesToHexChars bs).length = 2 * bs.length := by
  unfold bytesToHexChars
  induction bs with
  | nil => rfl
  | cons b bs ih =>
    simp only [List.map_cons, List.flatten_cons, List.length_append,
      List.length_cons, List.length_nil, List.length_map] at ih ⊢
    omega

/-- `hexdigest(n)` returns `2 * n` characters. -/
theorem shake128Hexdigest_length (msg : List Nat) (n : Nat) :
    (shake128Hexdigest msg n).length = 2 * n := by
  show (bytesToHexChars (shake128Bytes msg n)).length = 2 * n
  rw [bytesToHexChars_length, shake128Bytes_length]

/-- `str.upper()` preserves length. -/
theorem pyUpper_length (s : String) : (pyUpper s).length = s.length := by
  show (s.data.map Char.toUpper).length = s.data.length
  exact List.length_map _ _

set_option maxRecDepth 400000 in
/-- C3: every generated fallback id has 13 characters - the X marker plus
the 12 hex characters of the 6-byte digest that `int(hash_length - 1 / 2)`
requests - not the 7 characters the docstring and the spec promise; at
the concrete seed (area_m2 = 0.0, address = empty) the generated id is
X808E366A2772. -/
theorem c3_generated_id_length :
    (∀ (area_m2 : ℚ) (address : String),
      (generateListingId area_m2 address).length = 13) ∧
    generateListingId 0 "" = "X808E366A2772" := by
  constructor
  · intro area_m2 address
    unfold generateListingId
    rw [pyUpper_length, String.length_append, shake128Hexdigest_length,
      digestByteCount_eq]
    rfl
  · unfold generateListingId
    rw [digestByteCount_eq]
    rfl

/-- C4: the generated id reads nothing but area_m2 and address, so two
listings agreeing on those two fields always receive the same id. -/
theorem c4_generated_id_deterministic (l1 l2 : Listing)
    (harea : l1.area_m2 = l2.area_m2) (haddr : l1.address = l2.address) :
    (Listing.assignRandomId l1).id = (Listing.assignRandomId l2).id := by
  show generateListingId l1.area_m2 l1.address =
    generateListingId l2.area_m2 l2.address
  rw [harea, haddr]

/-- Witness for C4: two listings sharing area_m2 and address but
differing in id, price and url receive the same generated id. -/
theorem c4_generated_id_deterministic_witness :
    lstSeedFirst.area_m2 = lstSeedSecond.area_m2 ∧
    lstSeedFirst.address = lstSeedSecond.address ∧
    (Listing.assignRandomId lstSeedFirst).id =
      (Listing.assignRandomId lstSeedSecond).id :=
  ⟨rfl, rfl, c4_generated_id_deterministic lstSeedFirst lstSeedSecond rfl rfl⟩

/-- C7: the free-text address with a comma inside the house range parses
to city Tallinn, street Kalaranna, house number 21/23 and apartment
number 49: the street segment starts after the last comma not preceded
by a digit and the in-segment comma becomes a slash. -/
theorem c7_kv_parse_address :
    kvParseAddress ("Harju, Tallinn, Northern District, Kalaranna 21, 23-49") =
      { city := "Tallinn", street := "Kalaranna",
        house_number := "21/23", apartment_number := "49" } := by
  rfl

/-- C8 counterexample: the membership test is against the whole class
`__dict__`, so in the data_classes.py variant assigning to
`__eq_variables__` - a class-dict name that is not a declared data
field - succeeds silently, storing `list("xy")` as a shadowing instance
attribute with no error to the caller; and in the data_processing.py
variant an assignment to the absent name bogus is caught inside
`__setattr__` and only logged, so no error reaches the caller there
either. -/
theorem c8_setattr_counterexample :
    Listing.setattrDC Listing.init "__eq_variables__" (PyValue.str "xy") =
      Except.ok (Listing.init,
        Option.some ("__eq_variables__", PyValue.list ["x", "y"])) ∧
    Listing.setattrDP Listing.init "bogus" (PyValue.str "x") =
      Except.ok (Listing.init, Option.none, [dpUnknownFieldLog "bogus"]) :=
  ⟨rfl, rfl⟩

/-- C8 (amended): a name absent from the class `__dict__` raises the
UserWarning to the caller in the data_classes.py variant and is caught
and only logged in the data_processing.py variant, the value inserted in
neither; a declared data field assigned a value of its declared type is
stored in both variants; but the membership test accepts every
class-dict name, so a non-field class attribute whose typecast succeeds
(e.g. str("...") for `__module__`, list("...") for `__eq_variables__`)
is silently stored as a shadowing instance attribute with the record
fields untouched, and for method and descriptor names the typecast
raises TypeError, not the UserWarning. -/
theorem c8_setattr (l : Listing) (name : String) (v : PyValue) :
    (dcClassDict name = Option.none →
      Listing.setattrDC l name v = Except.error (unknownFieldMsg name)) ∧
    (dpClassDict name = Option.none →
      Listing.setattrDP l name v =
        Except.ok (l, Option.none, [dpUnknownFieldLog name])) ∧
    (∀ t, dcClassDict name = Option.some (ClassAttrType.field t) →
      typeMatches t v = true →
      Listing.setattrDC l name v =
        Except.ok (l.setField name v, Option.none)) ∧
    (∀ t, dpClassDict name = Option.some (ClassAttrType.field t) →
      typeMatches t v = true →
      Listing.setattrDP l name v =
        Except.ok (l.setField name v, Option.none, [])) ∧
    (∀ a, dcClassDict name = Option.some a →
      (∀ t, a ≠ ClassAttrType.field t) →
      ∀ cv, classTypecastDC a v = Except.ok cv →
        Listing.setattrDC l name v = Except.ok (l, Option.some (name, cv))) ∧
    (∀ a, dpClassDict name = Option.some a →
      (∀ t, a ≠ ClassAttrType.field t) →
      ∀ cv, classTypecastDP a v = Except.ok cv →
        Listing.setattrDP l name v =
          Except.ok (l, Option.some (name, cv), [])) ∧
    (dcClassDict name = Option.some ClassAttrType.callable →
      Listing.setattrDC l name v =
        Except.error "TypeError: cannot create instances of this type") := by
  have hfield : ∀ t, typeMatches t v = true →
      classTypecastDC (ClassAttrType.field t) v = Except.ok v := by
    intro t hm
    cases t <;> cases v <;>
      simp_all [typeMatches, classTypecastDC, typecastValue]
  have hfield2 : ∀ t, typeMatches t v = true →
      classTypecastDP (ClassAttrType.field t) v = Except.ok v := by
    intro t hm
    cases t <;> cases v <;>
      simp_all [typeMatches, classTypecastDP, dpTypecastValue, typecastValue]
  refine ⟨?_, ?_, ?_, ?_, ?_, ?_, ?_⟩
  · intro h
    unfold Listing.setattrDC
    rw [h]
  · intro h
    unfold Listing.setattrDP
    rw [h]
  · intro t ht hm
    simp [Listing.setattrDC, ht, hfield t hm]
  · intro t ht hm
    simp [Listing.setattrDP, ht, hfield2 t hm]
  · intro a ha hnf cv hcv
    cases a with
    | field t => exact absurd rfl (hnf t)
    | pyStr => simp [Listing.setattrDC, ha, hcv]
    | pyList => simp [Listing.setattrDC, ha, hcv]
    | pyNone => simp [Listing.setattrDC, ha, hcv]
    | callable => simp [Listing.setattrDC, ha, hcv]
  · intro a ha hnf cv hcv
    cases a with
    | field t => exact absurd rfl (hnf t)
    | pyStr => simp [Listing.setattrDP, ha, hcv]
    | pyList => simp [Listing.setattrDP, ha, hcv]
    | pyNone => simp [Listing.setattrDP, ha, hcv]
    | callable => simp [Listing.setattrDP, ha, hcv]
  · intro h
    unfold Listing.setattrDC
    rw [h]
    cases v <;> rfl

/-- Witness for C8: the absent name bogus errors in the data_classes
variant and is swallowed with a log line in the data_processing variant;
the declared field address accepts a string in both; `__eq_variables__`
silently stores a list in the data_classes variant and `__module__`
silently stores a string in the data_processing variant; the method name
of `__str__` raises TypeError from the typecast. -/
theorem c8_setattr_witness :
    (dcClassDict "bogus" = Option.none ∧
      Listing.setattrDC Listing.init "bogus" (PyValue.str "x") =
        Except.error (unknownFieldMsg "bogus")) ∧
    (dpClassDict "bogus" = Option.none ∧
      Listing.setattrDP Listing.init "bogus" (PyValue.str "x") =
        Except.ok (Listing.init, Option.none, [dpUnknownFieldLog "bogus"])) ∧
    (dcClassDict "address" = Option.some (ClassAttrType.field PyType.str) ∧
      typeMatches PyType.str (PyValue.str "Foo 1") = true ∧
      Listing.setattrDC Listing.init "address" (PyValue.str "Foo 1") =
        Except.ok (Listing.init.setField "address" (PyValue.str "Foo 1"),
          Option.none)) ∧
    (dpClassDict "address" = Option.some (ClassAttrType.field PyType.str) ∧
      Listing.setattrDP Listing.init "address" (PyValue.str "Foo 1") =
        Except.ok (Listing.init.setField "address" (PyValue.str "Foo 1"),
          Option.none, [])) ∧
    (dcClassDict "__eq_variables__" = Option.some ClassAttrType.pyList ∧
      classTypecastDC ClassAttrType.pyList (PyValue.str "xy") =
        Except.ok (PyValue.list ["x", "y"]) ∧
      Listing.setattrDC Listing.init "__eq_variables__" (PyValue.str "xy") =
        Except.ok (Listing.init,
          Option.some ("__eq_variables__", PyValue.list ["x", "y"]))) ∧
    (dpClassDict "__module__" = Option.some ClassAttrType.pyStr ∧
      Listing.setattrDP Listing.init "__module__" (PyValue.int 5) =
        Except.ok (Listing.init,
          Option.some ("__module__", PyValue.str "5"), [])) ∧
    (dcClassDict "__str__" = Option.some ClassAttrType.callable ∧
      Listing.setattrDC Listing.init "__str__" (PyValue.int 5) =
        Except.error "TypeError: cannot create instances of this type") :=
  ⟨⟨rfl, (c8_setattr Listing.init "bogus" (PyValue.str "x")).1 rfl⟩,
   ⟨rfl, (c8_setattr Listing.init "bogus" (PyValue.str "x")).2.1 rfl⟩,
   ⟨rfl, rfl,
    (c8_setattr Listing.init "address" (PyValue.str "Foo 1")).2.2.1
      PyType.str rfl rfl⟩,
   ⟨rfl,
    (c8_setattr Listing.init "address" (PyValue.str "Foo 1")).2.2.2.1
      PyType.str rfl rfl⟩,
   ⟨rfl, rfl,
    (c8_setattr Listing.init "__eq_variables__" (PyValue.str "xy")).2.2.2.2.1
      ClassAttrType.pyList rfl (fun _ h => ClassAttrType.noConfusion h)
      (PyValue.list ["x", "y"]) rfl⟩,
   ⟨rfl,
    (c8_setattr Listing.init "__module__" (PyValue.int 5)).2.2.2.2.2.1
      ClassAttrType.pyStr rfl (fun _ h => ClassAttrType.noConfusion h)
      (PyValue.str "5") rfl⟩,
   ⟨rfl,
    (c8_setattr Listing.init "__str__" (PyValue.int 5)).2.2.2.2.2.2 rfl⟩⟩

/-- The sample size never exceeds a non-empty population:
`1 + int(0.02 * n) ≤ n` for `n ≥ 1`. -/
theorem sampleSize_le (n : Nat) (h : 0 < n) : ¬(n < 1 + 2 * n / 100) := by
  have h50 : 2 * n / 100 = n / 50 := by
    rw [show (100 : Nat) = 2 * 50 from rfl]
    exact Nat.mul_div_mul_left n 50 (by norm_num)
  rw [h50]
  have := Nat.div_lt_self h (show 1 < 50 by norm_num)
  omega

/-- C9: a non-empty scraped batch in which every record has an empty
address always fails validation - any sample drawn from it consists of
empty-address records - and the batch is then skipped: the store is
returned untouched and the batch file is archived with the not-used
marker. -/
theorem c9_empty_address_batch (scraped store sample : List Listing) (now : ℚ)
    (hne : scraped ≠ [])
    (hempty : ∀ l ∈ scraped, l.address = "")
    (hsample : ∀ l ∈ sample, l ∈ scraped) :
    validateScrapedData scraped sample = Except.ok false ∧
    processFile scraped store sample now = Except.ok (store, true) := by
  have hval : validateScrapedData scraped sample = Except.ok false := by
    unfold validateScrapedData
    rw [if_neg (sampleSize_le scraped.length (List.length_pos.mpr hne))]
    have hany : sample.any (fun l => decide (l.address.length ≠ 0)) = false := by
      rw [Bool.eq_false_iff]
      intro hx
      obtain ⟨x, hxmem, hxp⟩ := List.any_eq_true.mp hx
      rw [hempty x (hsample x hxmem)] at hxp
      exact absurd rfl (of_decide_eq_true hxp)
    rw [hany]
  refine ⟨hval, ?_⟩
  unfold processFile
  rw [hval]

/-- Witness for C9: a singleton batch holding the default listing (its
address is empty) is rejected and the store survives unchanged. -/
theorem c9_empty_address_batch_witness :
    (([Listing.init] : List Listing) ≠ []) ∧
    (∀ l ∈ ([Listing.init] : List Listing), l.address = "") ∧
    (∀ l ∈ ([Listing.init] : List Listing), l ∈ ([Listing.init] : List Listing)) ∧
    (validateScrapedData [Listing.init] [Listing.init] = Except.ok false ∧
      processFile [Listing.init] [lstActiveOld] [Listing.init] 5 =
        Except.ok ([lstActiveOld], true)) :=
  ⟨by simp, by decide, fun l hl => hl,
   c9_empty_address_batch [Listing.init] [lstActiveOld] [Listing.init] 5
     (by simp) (by decide) (fun l hl => hl)⟩

/-- C10: validation is not total on the empty batch: with zero listings
the sample size `1 + int(0.02 * 0) = 1` exceeds the population, so
`random.sample` raises instead of returning a boolean; on any non-empty
batch the function returns a boolean. -/
theorem c10_validate_not_total (listings sample : List Listing) :
    (validateScrapedData [] sample).isOk = false ∧
    (listings ≠ [] → (validateScrapedData listings sample).isOk = true) := by
  constructor
  · rfl
  · intro h
    unfold validateScrapedData
    rw [if_neg (sampleSize_le listings.length (List.length_pos.mpr h))]
    rfl

/-- Witness for C10: the empty batch crashes validation, the singleton
batch returns a boolean. -/
theorem c10_validate_not_total_witness :
    (validateScrapedData [] ([] : List Listing)).isOk = false ∧
    (validateScrapedData [Listing.init] ([] : List Listing)).isOk = true :=
  ⟨(c10_validate_not_total [Listing.init] []).1,
   (c10_validate_not_total [Listing.init] []).2 (by simp)⟩

end Apartmentbot
